import Mathlib

/-!
Verification of the fractal-gui rendering core against its specification.

The development shallowly embeds the two source files of the repository:

* `src/renderer.rs` — the `Renderer` (shader program lifecycle, paint,
  off-screen capture).  GPU side effects are modelled as a trace of GL calls
  recorded in a `GLState`; the outcomes of GPU queries (compile status, link
  status, framebuffer completeness, pixel readback) are supplied by a `GLSpec`
  oracle, since they are decided by the graphics driver, not by this code.
* `src/app.rs` — the per-frame UI update (`App::update`): the view transform,
  the zoom-about-pointer update, and the calls the UI layer issues to the
  Renderer.

`f32` arithmetic is modelled over `ℚ`; `u32` arithmetic over `Nat` with
explicit `% 2 ^ 32` where overflow matters.  The fragment-shader preamble
`frag.glsl` is referenced by the source through `include_str!` but is not part
of the repository sources available here; where its content matters it is
modelled from the spec and marked as such.
-/

namespace FractalGui

/-- 2-component vector of (ideal) `f32`s, as egui's `Vec2`. -/
@[ext]
structure Vec2 where
  x : ℚ
  y : ℚ
deriving DecidableEq

/-- Color in hue/saturation/value/alpha form, as egui's `Hsva`. -/
structure Hsva where
  h : ℚ
  s : ℚ
  v : ℚ
  a : ℚ
deriving DecidableEq

/-- Per-frame snapshot of all shader parameters (`UniformData` in `app.rs`). -/
structure UniformData where
  center : Vec2
  zoom : ℚ
  resolution : Vec2
  window_offset : Vec2
  cycles : ℤ
  start_color : Hsva
  end_color : Hsva
deriving DecidableEq

/-- Shader stage, standing for the `glow::VERTEX_SHADER` / `glow::FRAGMENT_SHADER`
constants. -/
inductive ShaderType where
  | vertex
  | fragment
deriving DecidableEq

/-- The `glow::TRIANGLES` primitive-mode constant (`0x0004`). -/
def GL_TRIANGLES : Nat := 4

/-- Rust's `u32 as i32` conversion (two's complement reinterpretation). -/
def u32_as_i32 (n : Nat) : ℤ :=
  if n < 2 ^ 31 then (n : ℤ) else (n : ℤ) - 2 ^ 32

/-- One GL call issued by the Renderer.  Object-creating calls record the id
handed out for the new object; every id comes from a single counter, so ids
are unique across object kinds. -/
inductive GLCall where
  | createShader (id : Nat) (ty : ShaderType)
  | shaderSource (id : Nat) (src : String)
  | compileShader (id : Nat)
  | deleteShader (id : Nat)
  | createProgram (id : Nat)
  | attachShader (program shader : Nat)
  | detachShader (program shader : Nat)
  | linkProgram (id : Nat)
  | deleteProgram (id : Nat)
  | useProgram (id : Option Nat)
  | createVertexArray (id : Nat)
  | deleteVertexArray (id : Nat)
  | bindVertexArray (id : Option Nat)
  | createTexture (id : Nat)
  | deleteTexture (id : Nat)
  | bindTexture (id : Option Nat)
  | texImage2D (width height : ℤ)
  | texParameterI (pname : Nat) (value : ℤ)
  | createFramebuffer (id : Nat)
  | deleteFramebuffer (id : Nat)
  | bindFramebuffer (id : Option Nat)
  | framebufferTexture2D (texture : Option Nat)
  | checkFramebufferStatus
  | viewport (x y width height : ℤ)
  | getUniformLocation (name : String)
  | uniform1f (name : String) (v : ℚ)
  | uniform1i (name : String) (v : ℤ)
  | uniform2f (name : String) (vx vy : ℚ)
  | uniform3f (name : String) (v0 v1 v2 : ℚ)
  | bindVertexArrayNone
  | drawArrays (mode : Nat) (first count : ℤ)
  | readPixels (x y width height : ℤ)
deriving DecidableEq

/-- Oracle for the environment-decided outcomes of GPU operations: whether a
given shader source compiles, whether a program built from given vertex and
fragment sources links, the driver's info logs, framebuffer completeness, the
pixels read back, and the content of the `frag.glsl` preamble (referenced by
the source via `include_str!` but not present under the repository's `src/`;
per the spec it is the shared preamble with the escape-time loop). -/
structure GLSpec where
  compileOk : String → Bool
  linkOk : String → String → Bool
  shaderInfoLog : String → String
  programInfoLog : String → String → String
  fbComplete : Bool
  readback : Nat → Nat
  fragGlsl : String

/-- GL context state visible to the model: the id counter for created objects
and the trace of calls issued so far. -/
structure GLState where
  nextId : Nat
  trace : List GLCall
deriving DecidableEq

/-- The Renderer's own state: the active program and the full-screen-quad
vertex array (`struct Renderer` in `renderer.rs`). -/
structure Renderer where
  program : Nat
  vertex_array : Nat
deriving DecidableEq

/-- The `SHADER_VERSION` constant; the source selects `"#version 300 es\n"` on
wasm32 and `"#version 330\n"` otherwise — we model the native target. -/
def SHADER_VERSION : String := "#version 330\n"

/-- The `MANDELBROT_FUNC` source constant from `renderer.rs`. -/
def MANDELBROT_FUNC : String := r"
// `z` is the iteratively updated complex number
// `p` is previous value of `z`, `o` is the original value of `z`
vec2 iteration(vec2 p, vec2 o) {
    vec2 z;
    z.x = p.x * p.x - p.y * p.y + o.x;
    z.y = 2. * p.x * p.y + o.y;

    return z;
}
"

/-- The `JULIA_FUNC` source constant from `renderer.rs`: the Julia constant
`(0.3, -0.4)` is baked into the shader text at build time. -/
def JULIA_FUNC : String := r"
vec2 iteration(vec2 previous_z, vec2 original_z) {
    vec2 z;
    z.x = previous_z.x * previous_z.x - previous_z.y * previous_z.y + 0.3;
    z.y = 2. * previous_z.x * previous_z.y - 0.4;

    return z;
}
"

/-- The fixed vertex-shader source from `Renderer::create_program`. -/
def VERTEX_SHADER_SOURCE : String := r"
const vec2 verts[6] = vec2[6](
    vec2(-1.0, -1.0),
    vec2(1.0, 1.0),
    vec2(1.0, -1.0),
    vec2(-1.0, -1.0),
    vec2(-1.0, 1.0),
    vec2(1.0, 1.0)
);
out vec4 v_color;
void main() {
    gl_Position = vec4(verts[gl_VertexID], 0.0, 1.0);
}
"

/-- `Renderer::check_shader`: compile a throwaway fragment shader from
`SHADER_VERSION + frag.glsl + fractal_function`; on compile failure return the
info log (note: the source returns early, without deleting the throwaway
shader); on success delete the shader and return `Ok`. -/
def check_shader (spec : GLSpec) (fractal_function : String) (g : GLState) :
    Except String Unit × GLState :=
  let shader := g.nextId
  let g := { g with nextId := g.nextId + 1,
                    trace := g.trace ++ [GLCall.createShader shader ShaderType.fragment] }
  let src := SHADER_VERSION ++ spec.fragGlsl ++ fractal_function
  let g := { g with trace := g.trace ++
                    [GLCall.shaderSource shader src, GLCall.compileShader shader] }
  if spec.compileOk src then
    (Except.ok (), { g with trace := g.trace ++ [GLCall.deleteShader shader] })
  else
    (Except.error (spec.shaderInfoLog src), g)

/-- `Renderer::create_program`: create a program, then (unrolling the source's
two-iteration loop) compile and attach the vertex and fragment shaders, link,
and on success detach and delete both shaders.  Each failing compile or the
failing link returns early with the corresponding info log, leaving the
already-created objects as the source leaves them. -/
def create_program (spec : GLSpec) (fractal_function : String) (g : GLState) :
    Except String Nat × GLState :=
  let program := g.nextId
  let g := { g with nextId := g.nextId + 1,
                    trace := g.trace ++ [GLCall.createProgram program] }
  let vsrc := SHADER_VERSION ++ VERTEX_SHADER_SOURCE
  let fsrc := SHADER_VERSION ++ (spec.fragGlsl ++ fractal_function)
  let vs := g.nextId
  let g := { g with nextId := g.nextId + 1,
                    trace := g.trace ++
                      [GLCall.createShader vs ShaderType.vertex,
                       GLCall.shaderSource vs vsrc, GLCall.compileShader vs] }
  if spec.compileOk vsrc then
    let g := { g with trace := g.trace ++ [GLCall.attachShader program vs] }
    let fs := g.nextId
    let g := { g with nextId := g.nextId + 1,
                      trace := g.trace ++
                        [GLCall.createShader fs ShaderType.fragment,
                         GLCall.shaderSource fs fsrc, GLCall.compileShader fs] }
    if spec.compileOk fsrc then
      let g := { g with trace := g.trace ++
                        [GLCall.attachShader program fs, GLCall.linkProgram program] }
      if spec.linkOk vsrc fsrc then
        let g := { g with trace := g.trace ++
                          [GLCall.detachShader program vs, GLCall.deleteShader vs,
                           GLCall.detachShader program fs, GLCall.deleteShader fs] }
        (Except.ok program, g)
      else
        (Except.error (spec.programInfoLog vsrc fsrc), g)
    else
      (Except.error (spec.shaderInfoLog fsrc), g)
  else
    (Except.error (spec.shaderInfoLog vsrc), g)

/-- `Renderer::set_fractal_function`: validate with `check_shader` (propagating
its error), then delete the currently active program, then build the
replacement with `create_program`; on its failure the error propagates with
`self.program` left holding the old (now deleted) id, on success the new
program becomes active. -/
def set_fractal_function (spec : GLSpec) (r : Renderer) (fractal_function : String)
    (g : GLState) : Except String Unit × Renderer × GLState :=
  let c := check_shader spec fractal_function g
  match c.1 with
  | Except.error e => (Except.error e, r, c.2)
  | Except.ok _ =>
    let g := { c.2 with trace := c.2.trace ++ [GLCall.deleteProgram r.program] }
    let p := create_program spec fractal_function g
    match p.1 with
    | Except.error e => (Except.error e, r, p.2)
    | Except.ok np => (Except.ok (), { r with program := np }, p.2)

/-- `Renderer::new`: build the program for the builtin Mandelbrot formula
(`expect`ing success — a failure panics, modelled as `none`), then create the
vertex array. -/
def Renderer.new (spec : GLSpec) (g : GLState) : Option Renderer × GLState :=
  let p := create_program spec MANDELBROT_FUNC g
  match p.1 with
  | Except.error _ => (none, p.2)
  | Except.ok program =>
    let va := p.2.nextId
    let g := { p.2 with nextId := p.2.nextId + 1,
                        trace := p.2.trace ++ [GLCall.createVertexArray va] }
    (some { program := program, vertex_array := va }, g)

/-- `Renderer::destroy`: delete the active program and the vertex array. -/
def destroy (r : Renderer) (g : GLState) : GLState :=
  { g with trace := g.trace ++
           [GLCall.deleteProgram r.program, GLCall.deleteVertexArray r.vertex_array] }

/-- `Renderer::paint`: bind the active program, upload the seven `UniformData`
fields (looking up each uniform location), bind the vertex array, and issue one
6-vertex `TRIANGLES` draw. -/
def paint (r : Renderer) (u : UniformData) (g : GLState) : GLState :=
  { g with trace := g.trace ++
      [GLCall.useProgram (some r.program),
       GLCall.getUniformLocation "center",
       GLCall.uniform2f "center" u.center.x u.center.y,
       GLCall.getUniformLocation "cycles",
       GLCall.uniform1i "cycles" u.cycles,
       GLCall.getUniformLocation "zoom",
       GLCall.uniform1f "zoom" u.zoom,
       GLCall.getUniformLocation "resolution",
       GLCall.uniform2f "resolution" u.resolution.x u.resolution.y,
       GLCall.getUniformLocation "window_offset",
       GLCall.uniform2f "window_offset" u.window_offset.x u.window_offset.y,
       GLCall.getUniformLocation "start_color",
       GLCall.uniform3f "start_color" u.start_color.h u.start_color.s u.start_color.v,
       GLCall.getUniformLocation "end_color",
       GLCall.uniform3f "end_color" u.end_color.h u.end_color.s u.end_color.v,
       GLCall.bindVertexArray (some r.vertex_array),
       GLCall.drawArrays GL_TRIANGLES 0 6] }

/-- The uniform snapshot `render_to_buffer` hands to `paint`: the caller's
snapshot with `window_offset` forced to `(0, 0)`
(`UniformData { window_offset: (0., 0.).into(), ..uniform_data }`). -/
def captureSnapshot (u : UniformData) : UniformData :=
  { u with window_offset := { x := 0, y := 0 } }

/-- `Renderer::render_to_buffer`: create and bind a texture of the requested
size, create a framebuffer and attach the texture, assert completeness (an
assertion failure panics — modelled as a `none` result with the trace as
issued so far, the cleanup section never being reached), set the viewport,
paint with `window_offset` forced to zero, read the pixels back into a
`width * height * 4`-byte vector (u32 arithmetic, hence the `% 2 ^ 32`), then
unbind and delete the framebuffer and texture. -/
def render_to_buffer (spec : GLSpec) (r : Renderer) (width height : Nat)
    (uniform_data : UniformData) (g : GLState) : Option (List Nat) × GLState :=
  let texture := g.nextId
  let g := { g with nextId := g.nextId + 1,
                    trace := g.trace ++
                      [GLCall.createTexture texture,
                       GLCall.bindTexture (some texture),
                       GLCall.texImage2D (u32_as_i32 width) (u32_as_i32 height),
                       GLCall.texParameterI 10241 9729,
                       GLCall.texParameterI 10240 9729] }
  let framebuffer := g.nextId
  let g := { g with nextId := g.nextId + 1,
                    trace := g.trace ++
                      [GLCall.createFramebuffer framebuffer,
                       GLCall.bindFramebuffer (some framebuffer),
                       GLCall.framebufferTexture2D (some texture),
                       GLCall.checkFramebufferStatus] }
  if spec.fbComplete then
    let g := { g with trace := g.trace ++
                      [GLCall.viewport 0 0 (u32_as_i32 width) (u32_as_i32 height)] }
    let g := paint r (captureSnapshot uniform_data) g
    let pixels : List Nat := List.replicate (width * height * 4 % 2 ^ 32) 0
    let pixels := (List.range pixels.length).map spec.readback
    let g := { g with trace := g.trace ++
                      [GLCall.readPixels 0 0 (u32_as_i32 width) (u32_as_i32 height)] }
    let g := { g with trace := g.trace ++
                      [GLCall.bindFramebuffer none,
                       GLCall.deleteFramebuffer framebuffer,
                       GLCall.deleteTexture texture] }
    (some pixels, g)
  else
    (none, g)

/-- The `screen_to_fractal_coords` closure from `App::update`: normalize the
screen position by subtracting the window correction and dividing by the
viewport size (componentwise), recenter by `(0.5, 0.5)`, and add the current
`center`. -/
def screen_to_fractal_coords (window_correction rect_size center pos : Vec2) : Vec2 :=
  let p : Vec2 := { x := (pos.x - window_correction.x) / rect_size.x,
                    y := (pos.y - window_correction.y) / rect_size.y }
  let q : Vec2 := { x := p.x - 1 / 2, y := p.y - 1 / 2 }
  { x := q.x + center.x, y := q.y + center.y }

/-- The inverse view transform.  It does not appear in the sources; the spec
(§4.1) requires it to exist as the inverse of `screen_to_fractal_coords`, so it
is defined here as that inverse. -/
def fractal_to_screen (window_correction rect_size center p : Vec2) : Vec2 :=
  { x := (p.x - center.x + 1 / 2) * rect_size.x + window_correction.x,
    y := (p.y - center.y + 1 / 2) * rect_size.y + window_correction.y }

/-- Modelled from the spec: the fractal-plane coordinate shown at a screen
position.  The shader preamble `frag.glsl` is not part of the repository's
sources; per spec §4.1 the zoom scale is applied on the shader side ("add the
current `center` (optionally scaled by `1/zoom` ...) — both are valid as long
as host and shader agree"), so the displayed fractal point is the host-side
`screen_to_fractal_coords` value scaled by `1 / zoom`. -/
def fractalPointAt (window_correction rect_size center : Vec2) (zoom : ℚ)
    (pos : Vec2) : Vec2 :=
  let p := screen_to_fractal_coords window_correction rect_size center pos
  { x := p.x / zoom, y := p.y / zoom }

/-- The central-panel part of `App::update` (lines 282–311): recompute drag,
resolution, window offset and center, then — when a pointer position is
available — apply the zoom-about-pointer update.  The screen rectangle enters
through its min and max corners; `window_correction` is computed exactly as in
the source (left-bottom difference with the x component negated). -/
def centralPanelUpdate (u : UniformData) (rect_min rect_size drag_delta : Vec2)
    (ppp : ℚ) (screen_min screen_max : Vec2) (zoom_delta : ℚ)
    (pointer : Option Vec2) : UniformData :=
  let drag : Vec2 := { x := drag_delta.x / rect_size.x, y := drag_delta.y / rect_size.y }
  let u := { u with resolution := { x := rect_size.x * ppp, y := rect_size.y * ppp },
                    window_offset := { x := rect_min.x * ppp, y := rect_min.y * ppp },
                    center := { x := u.center.x - drag.x, y := u.center.y - drag.y } }
  let center := u.center
  let wc0 : Vec2 := { x := screen_min.x - rect_min.x,
                      y := screen_max.y - (rect_min.y + rect_size.y) }
  let window_correction : Vec2 := { x := -wc0.x, y := wc0.y }
  match pointer with
  | none => u
  | some pos =>
    let p := screen_to_fractal_coords window_correction rect_size center pos
    { u with zoom := u.zoom * zoom_delta,
             center := { x := u.center.x + p.x * (zoom_delta - 1),
                         y := u.center.y + p.y * (zoom_delta - 1) } }

/-- Rust's saturating `f32 as u32` cast (negative values to 0, values past
`u32::MAX` to `u32::MAX`, truncation toward zero otherwise), used for the
screenshot width and height. -/
def f32_as_u32 (q : ℚ) : Nat :=
  if q ≤ 0 then 0 else min q.floor.toNat (2 ^ 32 - 1)

/-- The fractal-type discriminant from `app.rs`. -/
inductive FractalType where
  | Mandelbrot
  | Julia
  | Custom
deriving DecidableEq

/-- The `App` state fields from `app.rs` (minus the shared renderer handle,
which is passed separately to the update step). -/
structure AppState where
  uniform_data : UniformData
  aspect_ratio : Option ℚ
  fractal_type : FractalType
  julia_coefficient : Vec2
  custom_fractal_function : String
  shader_error : Option String
  settings_shown : Bool

/-- The per-frame input collected by the UI widgets during one `App::update`
call: which buttons/radios were clicked, the values left in the widgets by the
user, and the central-panel geometry and pointer input.  `Option`-valued
fields are `some` exactly when the widget reported a change this frame. -/
structure FrameInput where
  open_settings_clicked : Bool
  hide_clicked : Bool
  cycles_value : ℤ
  start_color_value : Hsva
  end_color_value : Hsva
  dynamic_clicked : Bool
  ratio_16_9_clicked : Bool
  mandelbrot_clicked : Bool
  julia_clicked : Bool
  custom_clicked : Bool
  julia_x_value : Option ℚ
  julia_y_value : Option ℚ
  screenshot_clicked : Bool
  custom_function_value : Option String
  rect_min : Vec2
  rect_size : Vec2
  drag_delta : Vec2
  ppp : ℚ
  screen_min : Vec2
  screen_max : Vec2
  zoom_delta : ℚ
  pointer_pos : Option Vec2

/-- Result of one `App::update` step: the new app state, the renderer, and the
GL state carrying the trace of all GL calls issued during the frame. -/
structure AppStepResult where
  state : AppState
  renderer : Renderer
  gl : GLState

/-- One `App::update` frame.  Mirrors the source's order: the open-settings
button (shown only while the panel is hidden), then the side panel (iteration
slider clamped to `1..=5000`, the two color pickers, the aspect-ratio radios,
the three fractal-type radios — the first two triggering a formula swap whose
result is discarded —, the Julia-constant drag values clamped to `-2.0..=2.0`
and shown only in Julia mode, the screenshot button calling
`render_to_buffer` on the current snapshot), then the custom-function editor
(shown only in Custom mode; a text change triggers a swap whose error is
stored in `shader_error`), then the central panel (transform update and the
deferred `paint` of the frame's snapshot). -/
def appUpdate (spec : GLSpec) (s : AppState) (r : Renderer) (g : GLState)
    (i : FrameInput) : AppStepResult :=
  let settings_shown :=
    if ¬ s.settings_shown ∧ i.open_settings_clicked then true else s.settings_shown
  let settings_shown2 := if settings_shown ∧ i.hide_clicked then false else settings_shown
  let ud := if settings_shown then
      { s.uniform_data with
          cycles := min 5000 (max 1 i.cycles_value),
          start_color := i.start_color_value,
          end_color := i.end_color_value }
    else s.uniform_data
  let aspect_ratio := if settings_shown then
      (if i.dynamic_clicked then none
       else if i.ratio_16_9_clicked then some (16 / 9) else s.aspect_ratio)
    else s.aspect_ratio
  let ft1 := if settings_shown ∧ i.mandelbrot_clicked then FractalType.Mandelbrot
             else s.fractal_type
  let rg1 := if settings_shown ∧ i.mandelbrot_clicked then
      (set_fractal_function spec r MANDELBROT_FUNC g).2
    else (r, g)
  let ft2 := if settings_shown ∧ i.julia_clicked then FractalType.Julia else ft1
  let rg2 := if settings_shown ∧ i.julia_clicked then
      (set_fractal_function spec rg1.1 JULIA_FUNC rg1.2).2
    else rg1
  let ft3 := if settings_shown ∧ i.custom_clicked then FractalType.Custom else ft2
  let jc := if settings_shown ∧ ft3 = FractalType.Julia then
      ({ x := min 2 (max (-2) (i.julia_x_value.getD s.julia_coefficient.x)),
         y := min 2 (max (-2) (i.julia_y_value.getD s.julia_coefficient.y)) } : Vec2)
    else s.julia_coefficient
  let w := f32_as_u32 ud.resolution.x
  let h := f32_as_u32 ud.resolution.y
  let g3 := if settings_shown ∧ i.screenshot_clicked then
      (render_to_buffer spec rg2.1 w h ud rg2.2).2
    else rg2.2
  let cff := if ft3 = FractalType.Custom then
      i.custom_function_value.getD s.custom_fractal_function
    else s.custom_fractal_function
  let doCustom := ft3 = FractalType.Custom ∧ i.custom_function_value.isSome
  let cres := set_fractal_function spec rg2.1 cff g3
  let r3 := if doCustom then cres.2.1 else rg2.1
  let g4 := if doCustom then cres.2.2 else g3
  let shader_error := if doCustom then
      (match cres.1 with
       | Except.error e => some e
       | Except.ok _ => none)
    else s.shader_error
  let ud2 := centralPanelUpdate ud i.rect_min i.rect_size i.drag_delta i.ppp
      i.screen_min i.screen_max i.zoom_delta i.pointer_pos
  let g5 := paint r3 ud2 g4
  { state := { uniform_data := ud2, aspect_ratio := aspect_ratio, fractal_type := ft3,
               julia_coefficient := jc, custom_fractal_function := cff,
               shader_error := shader_error, settings_shown := settings_shown2 },
    renderer := r3, gl := g5 }

/-- Ids of all objects created in a trace. -/
def createdIds : List GLCall → List Nat
  | [] => []
  | GLCall.createShader i _ :: t => i :: createdIds t
  | GLCall.createProgram i :: t => i :: createdIds t
  | GLCall.createVertexArray i :: t => i :: createdIds t
  | GLCall.createTexture i :: t => i :: createdIds t
  | GLCall.createFramebuffer i :: t => i :: createdIds t
  | _ :: t => createdIds t

/-- Ids of all objects deleted in a trace. -/
def deletedIds : List GLCall → List Nat
  | [] => []
  | GLCall.deleteShader i :: t => i :: deletedIds t
  | GLCall.deleteProgram i :: t => i :: deletedIds t
  | GLCall.deleteVertexArray i :: t => i :: deletedIds t
  | GLCall.deleteTexture i :: t => i :: deletedIds t
  | GLCall.deleteFramebuffer i :: t => i :: deletedIds t
  | _ :: t => deletedIds t

/-- Every created object has a matching delete somewhere in the trace. -/
def allReleased (t : List GLCall) : Prop :=
  ∀ i ∈ createdIds t, i ∈ deletedIds t

instance (t : List GLCall) : Decidable (allReleased t) :=
  List.decidableBAll _ (createdIds t)

/-- Whether a GL call is a draw call. -/
def isDrawCall : GLCall → Bool
  | GLCall.drawArrays _ _ _ => true
  | _ => false

/-- Position of the first occurrence of a call in a trace (trace length when
absent). -/
def traceIndex (c : GLCall) : List GLCall → Nat
  | [] => 0
  | a :: t => if a = c then 0 else traceIndex c t + 1

/-- Whether a swap result is an error. -/
def isErr : Except String Unit → Bool
  | Except.error _ => true
  | Except.ok _ => false

/-- A GL environment in which everything succeeds: all sources compile, all
programs link, framebuffers are complete, readback returns zeroes. -/
def specOk : GLSpec :=
  { compileOk := fun _ => true,
    linkOk := fun _ _ => true,
    shaderInfoLog := fun _ => "shader log",
    programInfoLog := fun _ _ => "program log",
    fbComplete := true,
    readback := fun _ => 0,
    fragGlsl := "" }

/-- The uniform defaults set in `App::new`: zoom `0.2`, `100` cycles, start
color `Hsva(1, 0, 1, 1)`, end color `Hsva(0, 0, 0, 1)`. -/
def defaultUniformData : UniformData :=
  { center := { x := 0, y := 0 },
    zoom := 1 / 5,
    resolution := { x := 0, y := 0 },
    window_offset := { x := 0, y := 0 },
    cycles := 100,
    start_color := { h := 1, s := 0, v := 1, a := 1 },
    end_color := { h := 0, s := 0, v := 0, a := 1 } }

/-- C5: for every caller-supplied snapshot, the snapshot `render_to_buffer`
hands to `paint` has `window_offset = (0, 0)` and every other field equal to
the caller's value; consequently in any completed capture the draw's
`window_offset` uniform upload carries `(0, 0)`. -/
theorem capture_forces_zero_window_offset (spec : GLSpec) (r : Renderer)
    (w h : Nat) (u : UniformData) (g : GLState) (hc : spec.fbComplete = true) :
    captureSnapshot u =
      { center := u.center, zoom := u.zoom, resolution := u.resolution,
        window_offset := { x := 0, y := 0 }, cycles := u.cycles,
        start_color := u.start_color, end_color := u.end_color }
    ∧ GLCall.uniform2f "window_offset" 0 0 ∈ (render_to_buffer spec r w h u g).2.trace := by
  refine ⟨rfl, ?_⟩
  simp [render_to_buffer, paint, captureSnapshot, hc]

theorem capture_forces_zero_window_offset_witness :
    specOk.fbComplete = true
    ∧ (captureSnapshot defaultUniformData =
        { center := defaultUniformData.center, zoom := defaultUniformData.zoom,
          resolution := defaultUniformData.resolution,
          window_offset := { x := 0, y := 0 }, cycles := defaultUniformData.cycles,
          start_color := defaultUniformData.start_color,
          end_color := defaultUniformData.end_color }
      ∧ GLCall.uniform2f "window_offset" 0 0 ∈
          (render_to_buffer specOk { program := 1, vertex_array := 2 } 1 1
            defaultUniformData { nextId := 3, trace := [] }).2.trace) :=
  ⟨rfl, capture_forces_zero_window_offset specOk { program := 1, vertex_array := 2 }
    1 1 defaultUniformData { nextId := 3, trace := [] } rfl⟩

/-- C10: `paint` binds the active program, uploads the seven `UniformData`
fields with the stated shapes (2-component floats for center, resolution and
window_offset, an integer for cycles, a float for zoom, 3-component floats for
the two HSV colors), binds the vertex array, and issues exactly one 6-vertex
`TRIANGLES` draw. -/
theorem paint_uploads_uniforms_single_draw (r : Renderer) (u : UniformData)
    (g : GLState) :
    (paint r u g).trace = g.trace ++
      [GLCall.useProgram (some r.program),
       GLCall.getUniformLocation "center",
       GLCall.uniform2f "center" u.center.x u.center.y,
       GLCall.getUniformLocation "cycles",
       GLCall.uniform1i "cycles" u.cycles,
       GLCall.getUniformLocation "zoom",
       GLCall.uniform1f "zoom" u.zoom,
       GLCall.getUniformLocation "resolution",
       GLCall.uniform2f "resolution" u.resolution.x u.resolution.y,
       GLCall.getUniformLocation "window_offset",
       GLCall.uniform2f "window_offset" u.window_offset.x u.window_offset.y,
       GLCall.getUniformLocation "start_color",
       GLCall.uniform3f "start_color" u.start_color.h u.start_color.s u.start_color.v,
       GLCall.getUniformLocation "end_color",
       GLCall.uniform3f "end_color" u.end_color.h u.end_color.s u.end_color.v,
       GLCall.bindVertexArray (some r.vertex_array),
       GLCall.drawArrays GL_TRIANGLES 0 6]
    ∧ ((paint r u g).trace.filter isDrawCall).length
        = (g.trace.filter isDrawCall).length + 1 := by
  refine ⟨rfl, ?_⟩
  simp [paint, isDrawCall, List.filter_append]

/-- C7: noninterference of the Julia-constant control.  Two frames whose app
states differ only in `julia_coefficient` issue identical GL traces (hence
identical program sources, uniform uploads and draw calls) and end with
identical renderer states: the UI's Julia constant never reaches the renderer,
the shipped `JULIA_FUNC` having its constant baked into the shader text. -/
theorem julia_constant_noninterference (spec : GLSpec) (s : AppState)
    (c : Vec2) (r : Renderer) (g : GLState) (i : FrameInput) :
    (appUpdate spec { s with julia_coefficient := c } r g i).gl
      = (appUpdate spec s r g i).gl
    ∧ (appUpdate spec { s with julia_coefficient := c } r g i).renderer
      = (appUpdate spec s r g i).renderer := by
  cases s
  exact ⟨rfl, rfl⟩

/-- C2: zoom-about-pointer invariance.  For any state with `zoom > 0` and any
multiplicative `zoom_delta > 0`, taking `p` to be the pointer's fractal-space
position via `screen_to_fractal_coords` before the zoom, the update
`zoom *= zoom_delta`, `center += p * (zoom_delta - 1)` leaves the fractal
coordinate recovered at the pointer's screen position unchanged. -/
theorem zoom_about_pointer_invariant (wc rs center : Vec2) (zoom zoom_delta : ℚ)
    (ptr : Vec2) (hz : 0 < zoom) (hd : 0 < zoom_delta) :
    fractalPointAt wc rs
      { x := center.x + (screen_to_fractal_coords wc rs center ptr).x * (zoom_delta - 1),
        y := center.y + (screen_to_fractal_coords wc rs center ptr).y * (zoom_delta - 1) }
      (zoom * zoom_delta) ptr
    = fractalPointAt wc rs center zoom ptr := by
  have hz' : zoom ≠ 0 := ne_of_gt hz
  have hd' : zoom_delta ≠ 0 := ne_of_gt hd
  simp only [fractalPointAt, screen_to_fractal_coords, Vec2.mk.injEq]
  constructor <;> (field_simp; ring)

theorem zoom_about_pointer_invariant_witness :
    0 < (1 / 5 : ℚ) ∧ 0 < (2 : ℚ) ∧
    fractalPointAt { x := 0, y := 0 } { x := 2, y := 2 }
      { x := 1 + (screen_to_fractal_coords { x := 0, y := 0 } { x := 2, y := 2 }
              { x := 1, y := 1 } { x := 1, y := 1 }).x * (2 - 1),
        y := 1 + (screen_to_fractal_coords { x := 0, y := 0 } { x := 2, y := 2 }
              { x := 1, y := 1 } { x := 1, y := 1 }).y * (2 - 1) }
      (1 / 5 * 2) { x := 1, y := 1 }
    = fractalPointAt { x := 0, y := 0 } { x := 2, y := 2 } { x := 1, y := 1 }
        (1 / 5) { x := 1, y := 1 } :=
  ⟨by norm_num, by norm_num,
   zoom_about_pointer_invariant { x := 0, y := 0 } { x := 2, y := 2 } { x := 1, y := 1 }
     (1 / 5) 2 { x := 1, y := 1 } (by norm_num) (by norm_num)⟩

/-- C9: for every viewport with positive width and height the inverse
transform exists and round-trips with `screen_to_fractal_coords` in both
directions. -/
theorem screen_fractal_round_trip (wc rs center : Vec2)
    (hx : 0 < rs.x) (hy : 0 < rs.y) (pos p : Vec2) :
    fractal_to_screen wc rs center (screen_to_fractal_coords wc rs center pos) = pos
    ∧ screen_to_fractal_coords wc rs center (fractal_to_screen wc rs center p) = p := by
  have hx' : rs.x ≠ 0 := ne_of_gt hx
  have hy' : rs.y ≠ 0 := ne_of_gt hy
  constructor <;>
    · apply Vec2.ext <;>
      · simp only [fractal_to_screen, screen_to_fractal_coords]
        field_simp
        ring

theorem screen_fractal_round_trip_witness :
    0 < (2 : ℚ) ∧
    (fractal_to_screen { x := 1, y := 1 } { x := 2, y := 2 } { x := 3, y := 3 }
       (screen_to_fractal_coords { x := 1, y := 1 } { x := 2, y := 2 } { x := 3, y := 3 }
         { x := 5, y := 7 }) = { x := 5, y := 7 }
    ∧ screen_to_fractal_coords { x := 1, y := 1 } { x := 2, y := 2 } { x := 3, y := 3 }
       (fractal_to_screen { x := 1, y := 1 } { x := 2, y := 2 } { x := 3, y := 3 }
         { x := 4, y := 6 }) = { x := 4, y := 6 }) :=
  ⟨by norm_num,
   screen_fractal_round_trip { x := 1, y := 1 } { x := 2, y := 2 } { x := 3, y := 3 }
     (by norm_num) (by norm_num) { x := 5, y := 7 } { x := 4, y := 6 }⟩

/-- A GL environment in which every shader compiles but no program links
(possible in GLSL: a fragment source can compile while `iteration` stays
undefined until link time, per the spec's shader-source contract). -/
def specLinkFail : GLSpec := { specOk with linkOk := fun _ _ => false }

/-- A formula source that compiles as part of a fragment shader but leaves the
program unlinkable. -/
def c1Source : String := "vec2 helper(vec2 a, vec2 b) { return a; }"

/-- C1: refuted on the code.  With active program `5`, a swap whose validation
compiles but whose replacement program fails to link returns an error, yet the
trace shows the previously active program already deleted — and deleted before
the replacement's link — leaving the renderer holding a deleted program id. -/
theorem set_fractal_function_deletes_active_before_link :
    isErr (set_fractal_function specLinkFail { program := 5, vertex_array := 6 }
      c1Source { nextId := 7, trace := [] }).1 = true
    ∧ (set_fractal_function specLinkFail { program := 5, vertex_array := 6 }
        c1Source { nextId := 7, trace := [] }).2.1.program = 5
    ∧ GLCall.deleteProgram 5 ∈ (set_fractal_function specLinkFail
        { program := 5, vertex_array := 6 } c1Source { nextId := 7, trace := [] }).2.2.trace
    ∧ traceIndex (GLCall.deleteProgram 5) (set_fractal_function specLinkFail
        { program := 5, vertex_array := 6 } c1Source { nextId := 7, trace := [] }).2.2.trace
      < traceIndex (GLCall.linkProgram 8) (set_fractal_function specLinkFail
        { program := 5, vertex_array := 6 } c1Source { nextId := 7, trace := [] }).2.2.trace := by
  decide

/-- The prior frame's uniform state used in the degenerate-viewport frame. -/
def c3Prev : UniformData :=
  { defaultUniformData with resolution := { x := 800, y := 600 },
                            window_offset := { x := 5, y := 5 } }

/-- C3: refuted on the code.  On a frame with a zero-size viewport the
central-panel update is not skipped: the resolution is overwritten with the
zero viewport size (and the drag is divided by that zero size), so the prior
frame's uniform state is not retained. -/
theorem degenerate_viewport_update_not_skipped :
    (centralPanelUpdate c3Prev { x := 0, y := 0 } { x := 0, y := 0 } { x := 1, y := 1 }
        1 { x := 0, y := 0 } { x := 800, y := 600 } 1 none).resolution
      = { x := 0, y := 0 }
    ∧ centralPanelUpdate c3Prev { x := 0, y := 0 } { x := 0, y := 0 } { x := 1, y := 1 }
        1 { x := 0, y := 0 } { x := 800, y := 600 } 1 none ≠ c3Prev := by
  constructor
  · simp [centralPanelUpdate]
  · intro hcontra
    have hres := congrArg (fun u => u.resolution.x) hcontra
    simp [centralPanelUpdate, c3Prev, defaultUniformData] at hres

/-- C4 (amended): for `w, h > 0` whose `w * h * 4` byte count fits in `u32`,
and a complete framebuffer, `render_to_buffer` returns a buffer of exactly
`w * h * 4` bytes. -/
theorem render_to_buffer_byte_count (spec : GLSpec) (r : Renderer) (w h : Nat)
    (u : UniformData) (g : GLState) (hw : 0 < w) (hh : 0 < h)
    (hfit : w * h * 4 < 2 ^ 32) (hc : spec.fbComplete = true) :
    ∃ buf, (render_to_buffer spec r w h u g).1 = some buf ∧ buf.length = w * h * 4 := by
  refine ⟨(List.range (w * h * 4 % 2 ^ 32)).map spec.readback, ?_, ?_⟩
  · simp [render_to_buffer, hc]
  · simp only [List.length_map, List.length_range]
    omega

theorem render_to_buffer_byte_count_witness :
    0 < 1 ∧ 1 * 1 * 4 < 2 ^ 32 ∧ specOk.fbComplete = true ∧
    ∃ buf, (render_to_buffer specOk { program := 1, vertex_array := 2 } 1 1
        defaultUniformData { nextId := 3, trace := [] }).1 = some buf
      ∧ buf.length = 1 * 1 * 4 :=
  ⟨by decide, by norm_num, rfl,
   render_to_buffer_byte_count specOk { program := 1, vertex_array := 2 } 1 1
     defaultUniformData { nextId := 3, trace := [] } (by decide) (by decide)
     (by norm_num) rfl⟩

/-- C4 counterexample: at `w = h = 65536` (both positive) the `u32` product
`w * h * 4` wraps to `0`, so `render_to_buffer` returns a 0-byte buffer rather
than `w * h * 4 = 2 ^ 34` bytes. -/
theorem render_to_buffer_byte_count_counterexample :
    ¬ ∃ buf, (render_to_buffer specOk { program := 1, vertex_array := 2 } 65536 65536
        defaultUniformData { nextId := 3, trace := [] }).1 = some buf
      ∧ buf.length = 65536 * 65536 * 4 := by
  rintro ⟨buf, hb, hl⟩
  have hempty : (render_to_buffer specOk { program := 1, vertex_array := 2 } 65536 65536
      defaultUniformData { nextId := 3, trace := [] }).1 = some [] := by
    decide
  rw [hempty, Option.some.injEq] at hb
  rw [← hb] at hl
  simp at hl

/-- A GL environment whose framebuffer never reports complete. -/
def specFbFail : GLSpec := { specOk with fbComplete := false }

/-- C6: refuted on the code.  With an incomplete framebuffer the completeness
assertion panics before the cleanup section: the call produces no buffer, the
temporary texture (id 3) and framebuffer (id 4) are created but never deleted,
and the temporary framebuffer is left bound (no rebinding of the default
framebuffer ever appears in the trace). -/
theorem render_to_buffer_leaks_on_incomplete_framebuffer :
    (render_to_buffer specFbFail { program := 1, vertex_array := 2 } 100 100
        defaultUniformData { nextId := 3, trace := [] }).1 = none
    ∧ GLCall.createTexture 3 ∈ (render_to_buffer specFbFail
        { program := 1, vertex_array := 2 } 100 100 defaultUniformData
        { nextId := 3, trace := [] }).2.trace
    ∧ GLCall.createFramebuffer 4 ∈ (render_to_buffer specFbFail
        { program := 1, vertex_array := 2 } 100 100 defaultUniformData
        { nextId := 3, trace := [] }).2.trace
    ∧ GLCall.bindFramebuffer (some 4) ∈ (render_to_buffer specFbFail
        { program := 1, vertex_array := 2 } 100 100 defaultUniformData
        { nextId := 3, trace := [] }).2.trace
    ∧ GLCall.deleteTexture 3 ∉ (render_to_buffer specFbFail
        { program := 1, vertex_array := 2 } 100 100 defaultUniformData
        { nextId := 3, trace := [] }).2.trace
    ∧ GLCall.deleteFramebuffer 4 ∉ (render_to_buffer specFbFail
        { program := 1, vertex_array := 2 } 100 100 defaultUniformData
        { nextId := 3, trace := [] }).2.trace
    ∧ GLCall.bindFramebuffer none ∉ (render_to_buffer specFbFail
        { program := 1, vertex_array := 2 } 100 100 defaultUniformData
        { nextId := 3, trace := [] }).2.trace := by
  decide

/-- A formula source that fails to compile. -/
def badSource : String := "###"

/-- A GL environment in which exactly the fragment source assembled from
`badSource` fails to compile and everything else succeeds. -/
def c8Spec : GLSpec :=
  { specOk with compileOk := fun s => ! (s == SHADER_VERSION ++ badSource) }

/-- The full trace of: construct the Renderer (builtin Mandelbrot program),
attempt one formula swap with a source that fails to compile, then `destroy`. -/
def c8Trace : List GLCall :=
  let n := Renderer.new c8Spec { nextId := 0, trace := [] }
  match n.1 with
  | none => n.2.trace
  | some r =>
    let s := set_fractal_function c8Spec r badSource n.2
    (destroy s.2.1 s.2.2).trace

/-- C8: refuted on the code.  In the construct / failed-swap / destroy
sequence the validation shader created by `check_shader` (id 4) is never
deleted — the compile-failure path returns before the `delete_shader` call —
so after `destroy()` not every create call is matched by a delete call. -/
theorem destroy_leaves_validation_shader_undeleted :
    (Renderer.new c8Spec { nextId := 0, trace := [] }).1.isSome = true
    ∧ GLCall.createShader 4 ShaderType.fragment ∈ c8Trace
    ∧ GLCall.deleteShader 4 ∉ c8Trace
    ∧ ¬ allReleased c8Trace := by
  decide

end FractalGui
